import Mathlib

/- Shallow embedding of pyzkaccess/device_data/tables.py: the Field descriptor
   codec (to_raw_value / to_field_value / descriptor get, set, delete), the
   DataTable record state (raw_data dict, dirty flag, optional sdk handle) and
   its operations (construction from typed values, with_raw_data, with_sdk,
   save, delete, data view), plus the concrete schemas the claims reference
   (UserAuthorize, Timezone, and the lookup fields of Transaction / InOutFun).

   Python values relevant to these tables are modelled by the inductive PyVal;
   Python dicts by insertion-ordered association lists; Python exceptions by
   the PyError inductive carried in Except, and in-place mutation by total
   functions returning the object state after the call together with the
   exception that propagated, if any. -/

namespace Pyzk

/-- Kinds of Python exception raised by the code under embedding.  The message
strings keep only the static part of the source format strings. -/
inductive PyError where
  | typeError (msg : String)
  | valueError (msg : String)
  | keyError (msg : String)
  | indexError (msg : String)

/-- Python values that can flow through the field codecs of tables.py.
pyGen models a generator expression (as produced by the doors get hook);
pyTime models a datetime.time wall-clock value; pyEnum models an Enum member
carrying its underlying value; pyDoc models a value of the external lookup
tables.  Modelled from the spec: the lookup tables (EVENT_TYPES,
INOUTFUN_INPUT, INOUTFUN_OUTPUT in pyzkaccess/enums.py) are outside src, and
per the spec a mapped constant is an integer-like tagged value that
re-encodes to its own index, modelled here as pyDoc carrying the index. -/
inductive PyVal where
  | pyNone
  | pyBool (b : Bool)
  | pyInt (n : Int)
  | pyStr (s : String)
  | pyTime (hour minute : Nat)
  | pyTuple (items : List PyVal)
  | pyGen (items : List PyVal)
  | pyEnum (cls : String) (val : PyVal)
  | pyDoc (index : Int)

/-- Two-digit zero padding, as used by str() of a time value. -/
def natPad2 (n : Nat) : String :=
  if n < 10 then ("0") ++ toString n else toString n

/-- Python str() of an atomic (non-container) value. -/
def pyAtomString : PyVal → String
  | .pyNone => "None"
  | .pyBool true => "True"
  | .pyBool false => "False"
  | .pyInt n => toString n
  | .pyStr s => s
  | .pyTime h m => natPad2 h ++ (":") ++ natPad2 m ++ (":00")
  | .pyDoc n => toString n
  | .pyEnum cls _ => cls
  | .pyTuple _ => "tuple"
  | .pyGen _ => "generator object"

/-- Python str() of a value, for the constructors that can reach the final
str(value) call of Field.to_raw_value.  Containers render their elements one
level deep; no codec in these tables ever produces a tuple nested inside a
tuple, so the depth bound is never reached. -/
def pyToString : PyVal → String
  | .pyTuple xs =>
      ("(") ++ String.intercalate (", ") (xs.map pyAtomString) ++ (")")
  | .pyEnum cls v => cls ++ (".") ++ pyAtomString v
  | v => pyAtomString v

/-- Python int(s) on a string: parse the decimal digits after an optional
sign, ValueError on any other character or an empty digit sequence. -/
def parseDecNat : List Char → Nat → Except PyError Nat
  | [], acc => .ok acc
  | c :: rest, acc =>
    if c.isDigit then parseDecNat rest (acc * 10 + (c.toNat - 48))
    else .error (.valueError ("invalid literal for int with base 10"))

/-- Python int(s) on a string. -/
def pyIntOfStr (s : String) : Except PyError Int :=
  match s.data with
  | [] => .error (.valueError ("invalid literal for int with base 10"))
  | '-' :: rest =>
    if rest.isEmpty then .error (.valueError ("invalid literal for int with base 10"))
    else (parseDecNat rest 0).map (fun n => -(n : Int))
  | cs =>
    if (cs.head?.map Char.isDigit).getD false then (parseDecNat cs 0).map (fun n => (n : Int))
    else .error (.valueError ("invalid literal for int with base 10"))

/-- Python int(x): strings are parsed, bools are 0 or 1, ints are identity,
lookup constants unwrap to their index (modelled from the spec), anything
else is a TypeError. -/
def pyIntCast : PyVal → Except PyError Int
  | .pyStr s => pyIntOfStr s
  | .pyInt n => .ok n
  | .pyBool b => .ok (if b then 1 else 0)
  | .pyDoc n => .ok n
  | _ => .error (.typeError ("int argument must be a string or a number"))

/-- Python truthiness of a value, as used by bool(x). -/
def pyTruthy : PyVal → Bool
  | .pyNone => false
  | .pyBool b => b
  | .pyInt n => n != 0
  | .pyStr s => !s.isEmpty
  | .pyTime _ _ => true
  | .pyTuple xs => !xs.isEmpty
  | .pyGen _ => true
  | .pyEnum _ _ => true
  | .pyDoc n => n != 0

/-- The type tags a Field declaration can carry (its field_datatype). -/
inductive PyType where
  | strT
  | intT
  | boolT
  | tupleT
  | timeT

/-- Python isinstance against a field_datatype.  A bool is an instance of int
(bool subclasses int); a lookup constant counts as an int instance (modelled
from the spec, since the lookup tables live outside src); a generator is not
a tuple. -/
def isinstance : PyVal → PyType → Bool
  | .pyStr _, .strT => true
  | .pyBool _, .boolT => true
  | .pyBool _, .intT => true
  | .pyInt _, .intT => true
  | .pyDoc _, .intT => true
  | .pyTuple _, .tupleT => true
  | .pyTime _ _, .timeT => true
  | _, _ => false

/-- Python field_datatype(value): the cast attempted by Field.to_field_value
when the hook result is not already an instance of the declared type.
tuple(generator) materializes the generator; tuple(str) splits into
characters; int(x) is pyIntCast; str(x) is pyToString. -/
def PyType.cast : PyType → PyVal → Except PyError PyVal
  | .strT, v => .ok (.pyStr (pyToString v))
  | .intT, v => (pyIntCast v).map .pyInt
  | .boolT, v => .ok (.pyBool (pyTruthy v))
  | .tupleT, .pyTuple xs => .ok (.pyTuple xs)
  | .tupleT, .pyGen xs => .ok (.pyTuple xs)
  | .tupleT, .pyStr s => .ok (.pyTuple (s.data.map (fun c => .pyStr (Char.toString c))))
  | .tupleT, _ => .error (.typeError ("object is not iterable"))
  | .timeT, _ => .error (.typeError ("cannot construct a time from this value"))

/-- A field definition from tables.py: raw name in the device table, declared
datatype and the optional get, set and validation callbacks. -/
structure Field where
  raw_name : String
  field_datatype : PyType
  get_cb : Option (PyVal → Except PyError PyVal)
  set_cb : Option (PyVal → Except PyError PyVal)
  validation_cb : Option (PyVal → Except PyError Bool)

/-- The value of: validation_cb is None or validation_cb(value), with any
exception raised by the callback propagating. -/
def validationResult (f : Field) (v : PyVal) : Except PyError Bool :=
  match f.validation_cb with
  | none => .ok true
  | some cb => cb v

/-- The enum unwrapping step of to_raw_value: if isinstance(value, Enum) then
value = value.value. -/
def enumUnwrap : PyVal → PyVal
  | .pyEnum _ u => u
  | v => v

/-- The set_cb step of to_raw_value: if set_cb is not None, value =
set_cb(value). -/
def encodeHookResult (f : Field) (v : PyVal) : Except PyError PyVal :=
  match f.set_cb with
  | none => .ok v
  | some cb => cb v

/-- Field.to_raw_value from tables.py: check value against field_datatype,
raise TypeError on mismatch; then validate via validation_cb, raise
ValueError when it returns false; then unwrap an Enum value; then apply
set_cb; finally return str(value). -/
def Field.to_raw_value (f : Field) (v : PyVal) : Except PyError String :=
  if isinstance v f.field_datatype = false then
    .error (.typeError ("Bad value type"))
  else
    match validationResult f v with
    | .error e => .error e
    | .ok b =>
      if b = false then .error (.valueError ("Value does not meet to field restrictions"))
      else
        match encodeHookResult f (enumUnwrap v) with
        | .error e => .error e
        | .ok v2 => .ok (pyToString v2)

/-- Field.to_field_value from tables.py: apply get_cb to the raw string if
set, then if the result is not an instance of field_datatype try to cast it
to that type. -/
def Field.to_field_value (f : Field) (s : String) : Except PyError PyVal :=
  match (match f.get_cb with
         | none => Except.ok (PyVal.pyStr s)
         | some cb => cb (PyVal.pyStr s)) with
  | .error e => .error e
  | .ok v =>
    if isinstance v f.field_datatype then .ok v
    else f.field_datatype.cast v

/- Python dict model: insertion-ordered association list with unique keys.
Assignment replaces the first binding in place or appends; deletion removes
the binding; lookup finds the first binding. -/

/-- Python d.get(k) / d[k] lookup. -/
def dictGet {α : Type} : List (String × α) → String → Option α
  | [], _ => none
  | p :: rest, k => if p.1 == k then some p.2 else dictGet rest k

/-- Python d[k] = v assignment. -/
def dictSet {α : Type} : List (String × α) → String → α → List (String × α)
  | [], k, v => [(k, v)]
  | p :: rest, k, v => if p.1 == k then (k, v) :: rest else p :: dictSet rest k v

/-- Python del d[k]. -/
def dictDel {α : Type} : List (String × α) → String → List (String × α)
  | [], _ => []
  | p :: rest, k => if p.1 == k then rest else p :: dictDel rest k

/-- Python d.keys(). -/
def dictKeys {α : Type} (d : List (String × α)) : List String :=
  d.map (fun p => p.1)

/-- The persistence backend handle (_sdk).  The three-send generator
handshake of save and delete is collapsed to one call per operation that
either succeeds or reports the exception the handshake raised. -/
structure Sdk where
  set_device_data : String → List (String × String) → Option PyError
  delete_device_data : String → List (String × String) → Option PyError

/-- The per-record state of a DataTable instance: _sdk, _dirty and
_raw_data. -/
structure DataTable where
  sdk : Option Sdk
  dirty : Bool
  raw_data : List (String × String)

/-- A concrete DataTable subclass: its table_name and the declared fields in
declaration order (logical name paired with its Field descriptor), as
harvested by DataTableMetadata. -/
structure Schema where
  table_name : String
  fields : List (String × Field)

/-- The _fields_mapping built by DataTableMetadata: logical field name to
raw field name, in declaration order. -/
def Schema.fields_mapping (s : Schema) : List (String × String) :=
  s.fields.map (fun p => (p.1, p.2.raw_name))

/-- Field.__get__: read the raw value under raw_name; absent reads as None,
present values go through to_field_value. -/
def Field.get (f : Field) (st : DataTable) : Except PyError PyVal :=
  match dictGet st.raw_data f.raw_name with
  | none => .ok .pyNone
  | some r => f.to_field_value r

/-- Field.__delete__: remove raw_name from _raw_data if present and set
_dirty; a no-op when absent.  The first component is the object state after
the call, the second the exception that propagated (never any here). -/
def Field.del (f : Field) (st : DataTable) : DataTable × Option PyError :=
  if (dictKeys st.raw_data).contains f.raw_name then
    ({ st with raw_data := dictDel st.raw_data f.raw_name, dirty := true }, none)
  else (st, none)

/-- Field.__set__: None delegates to __delete__; otherwise to_raw_value runs
first and only on success is _raw_data updated and _dirty set, so a failed
encode leaves the state exactly as it was. -/
def Field.set (f : Field) (st : DataTable) (v : PyVal) : DataTable × Option PyError :=
  match v with
  | .pyNone => f.del st
  | _ =>
    match f.to_raw_value v with
    | .error e => (st, some e)
    | .ok raw => ({ st with raw_data := dictSet st.raw_data f.raw_name raw, dirty := true }, none)

/-- The dict comprehension of DataTable.__init__: encode each supplied field
through its descriptor's to_raw_value and store under its raw key. -/
def encodeFields (s : Schema) : List (String × PyVal) → List (String × String) →
    Except PyError (List (String × String))
  | [], acc => .ok acc
  | (name, v) :: rest, acc =>
    match dictGet s.fields name with
    | none => .error (.typeError ("Unknown fields"))
    | some f =>
      match f.to_raw_value v with
      | .error e => .error e
      | .ok raw => encodeFields s rest (dictSet acc f.raw_name raw)

/-- DataTable.__init__(**fields): _sdk None, _dirty True, _raw_data empty;
when kwargs are supplied, names outside _fields_mapping raise TypeError
before anything is encoded, otherwise exactly the supplied fields are
encoded into _raw_data.  A raised exception means no record is created. -/
def DataTable.init (s : Schema) (flds : List (String × PyVal)) : Except PyError DataTable :=
  if flds.isEmpty then .ok ⟨none, true, []⟩
  else if (dictKeys flds).any (fun k => !(dictKeys s.fields_mapping).contains k) then
    .error (.typeError ("Unknown fields"))
  else
    match encodeFields s flds [] with
    | .error e => .error e
    | .ok raw => .ok ⟨none, true, raw⟩

/-- DataTable.save: TypeError when no sdk is attached; otherwise run the
backend write handshake with table_name and raw_data, and only on success
clear _dirty. -/
def DataTable.save (s : Schema) (st : DataTable) : DataTable × Option PyError :=
  match st.sdk with
  | none => (st, some (.typeError ("Unable to save a manually created data table record")))
  | some k =>
    match k.set_device_data s.table_name st.raw_data with
    | some e => (st, some e)
    | none => ({ st with dirty := false }, none)

/-- DataTable.delete: TypeError when no sdk is attached; otherwise run the
backend delete handshake and on success set _dirty to True (stale marker). -/
def DataTable.delete (s : Schema) (st : DataTable) : DataTable × Option PyError :=
  match st.sdk with
  | none => (st, some (.typeError ("Unable to delete a manually created data table record")))
  | some k =>
    match k.delete_device_data s.table_name st.raw_data with
    | some e => (st, some e)
    | none => ({ st with dirty := true }, none)

/-- The value a raw_data lookup contributes to the data property: the raw
string when present, None when absent. -/
def rawToView : Option String → PyVal
  | some r => .pyStr r
  | none => .pyNone

/-- DataTable.data: the dict comprehension over _fields_mapping items mapping
each logical field name to _raw_data.get(raw key).  Note the raw string is
returned as is, without to_field_value. -/
def DataTable.data (s : Schema) (st : DataTable) : List (String × PyVal) :=
  s.fields_mapping.map (fun p => (p.1, rawToView (dictGet st.raw_data p.2)))

/-- DataTable.with_raw_data: replace _raw_data with the supplied mapping, no
validation, and set _dirty to the supplied flag (the source default is
True). -/
def DataTable.with_raw_data (st : DataTable) (raw : List (String × String)) (d : Bool) :
    DataTable :=
  { st with raw_data := raw, dirty := d }

/-- DataTable.with_sdk. -/
def DataTable.with_sdk (st : DataTable) (k : Sdk) : DataTable :=
  { st with sdk := some k }

/- Concrete field codecs and schemas referenced by the claims. -/

/-- A Field with only a raw name: datatype str, no callbacks. -/
def strField (raw : String) : Field :=
  ⟨raw, .strT, none, none, none⟩

/-- A Field declared with datatype int and no callbacks. -/
def intField (raw : String) : Field :=
  ⟨raw, .intT, none, none, none⟩

/-- The 04b format spec applied to an integer: binary digits zero-padded to a
minimum total width of 4 (a sign, when present, counts toward the width). -/
def format04b (n : Int) : String :=
  if n < 0 then
    let ds := Nat.toDigits 2 n.natAbs
    ("-") ++ String.mk (List.replicate (3 - ds.length) '0' ++ ds)
  else
    let ds := Nat.toDigits 2 n.toNat
    String.mk (List.replicate (4 - ds.length) '0' ++ ds)

/-- Python int(s, 2) over the already-sign-split digit list. -/
def parseBinNat : List Char → Nat → Except PyError Nat
  | [], acc => .ok acc
  | c :: rest, acc =>
    if c == '0' then parseBinNat rest (acc * 2)
    else if c == '1' then parseBinNat rest (acc * 2 + 1)
    else .error (.valueError ("invalid literal for int with base 2"))

/-- Python int(s, 2): parse a binary-digit string with optional minus sign. -/
def parseBinInt (s : String) : Except PyError Int :=
  match s.data with
  | [] => .error (.valueError ("invalid literal for int with base 2"))
  | '-' :: rest =>
    if rest.isEmpty then .error (.valueError ("invalid literal for int with base 2"))
    else (parseBinNat rest 0).map (fun n => -(n : Int))
  | cs => (parseBinNat cs 0).map (fun n => (n : Int))

/-- Python str.join over a sequence: every item must itself be a string,
otherwise join raises TypeError. -/
def joinStrs : List PyVal → Except PyError String
  | [] => .ok ("")
  | .pyStr s :: rest => (joinStrs rest).map (fun r => s ++ r)
  | _ :: _ => .error (.typeError ("sequence item: expected str instance"))

/-- The doors get hook from UserAuthorize: a generator over the reversed 04b
rendering of int(x), taking bool(i) of each one-character string i.  Note
bool of a one-character string is its non-emptiness, hence always True. -/
def doors_get_cb (v : PyVal) : Except PyError PyVal :=
  match pyIntCast v with
  | .error e => .error e
  | .ok n =>
    .ok (.pyGen ((format04b n).data.reverse.map
                  (fun c => PyVal.pyBool (!(Char.toString c).isEmpty))))

/-- The doors set hook from UserAuthorize: join the reversed sequence with
the empty separator and parse base 2.  On a tuple of booleans the join
raises TypeError, since its items are not strings. -/
def doors_set_cb (v : PyVal) : Except PyError PyVal :=
  match v with
  | .pyTuple xs =>
    match joinStrs xs.reverse with
    | .error e => .error e
    | .ok s => (parseBinInt s).map .pyInt
  | .pyStr s =>
    (parseBinInt (String.mk s.data.reverse)).map .pyInt
  | _ => .error (.typeError ("argument to reversed is not a sequence"))

/-- The doors validation hook: len(x) == 4.  len raises TypeError on values
with no length. -/
def doors_validation_cb (v : PyVal) : Except PyError Bool :=
  match v with
  | .pyTuple xs => .ok (xs.length == 4)
  | .pyStr s => .ok (s.length == 4)
  | _ => .error (.typeError ("object has no len"))

/-- UserAuthorize.doors, declared with raw name AuthorizeDoorId, datatype
tuple and the three hooks above. -/
def doors : Field :=
  ⟨("AuthorizeDoorId"), .tupleT, some doors_get_cb, some doors_set_cb, some doors_validation_cb⟩

/-- The UserAuthorize schema from tables.py. -/
def UserAuthorize : Schema :=
  ⟨("userauthorize"),
   [(("pin"), strField ("Pin")),
    (("timezone_id"), intField ("AuthorizeTimezoneId")),
    (("doors"), doors)]⟩

/-- Modelled from the spec: ZKDatetimeUtils.times_to_zktimerange (in
pyzkaccess/common.py, outside src) combines two wall-clock time values into
one opaque encoded range token; modelled as the integer hhmm * 10000 +
hhmm. -/
def times_to_zktimerange (a b : PyVal) : Except PyError PyVal :=
  match a, b with
  | .pyTime h1 m1, .pyTime h2 m2 =>
    .ok (.pyInt (((h1 * 100 + m1) * 10000 + (h2 * 100 + m2) : Nat) : Int))
  | _, _ => .error (.typeError ("expected time or datetime values"))

/-- Modelled from the spec: ZKDatetimeUtils.zktimerange_to_times, the inverse
direction of the opaque range token. -/
def zktimerange_to_times (v : PyVal) : Except PyError PyVal :=
  match pyIntCast v with
  | .error e => .error e
  | .ok n =>
    if n < 0 then .error (.valueError ("bad timerange token"))
    else
      .ok (.pyTuple [.pyTime (n.toNat / 10000 / 100) (n.toNat / 10000 % 100),
                     .pyTime (n.toNat % 10000 / 100) (n.toNat % 10000 % 100)])

/-- The _tz_encode helper: times_to_zktimerange(value[0], value[1]);
indexing an under-length tuple raises IndexError. -/
def tz_encode_cb (v : PyVal) : Except PyError PyVal :=
  match v with
  | .pyTuple (a :: b :: _) => times_to_zktimerange a b
  | .pyTuple _ => .error (.indexError ("tuple index out of range"))
  | _ => .error (.typeError ("object is not subscriptable"))

/-- The _tz_decode helper: ZKDatetimeUtils.zktimerange_to_times. -/
def tz_decode_cb (v : PyVal) : Except PyError PyVal :=
  zktimerange_to_times v

/-- The _tz_validate helper: len(value) == 2 and every element an instance of
time or datetime.  A string has a length but its characters are never time
values; values with no length raise TypeError. -/
def tz_validate_cb (v : PyVal) : Except PyError Bool :=
  match v with
  | .pyTuple xs =>
    .ok (xs.length == 2 && xs.all (fun x => match x with | .pyTime _ _ => true | _ => false))
  | .pyStr _ => .ok false
  | _ => .error (.typeError ("object has no len"))

/-- A Timezone segment field: datatype tuple with the _tz hooks. -/
def tzTimeField (raw : String) : Field :=
  ⟨raw, .tupleT, some tz_decode_cb, some tz_encode_cb, some tz_validate_cb⟩

/-- The Timezone schema from tables.py, in declaration order.  Note the
segment 3 weekday fields reuse the segment 2 raw names SunTime2 .. SatTime2
exactly as in the source. -/
def Timezone : Schema :=
  ⟨("timezone"),
   [(("timezone_id"), strField ("TimezoneId")),
    (("sun_time1"), tzTimeField ("SunTime1")),
    (("mon_time1"), tzTimeField ("MonTime1")),
    (("tue_time1"), tzTimeField ("TueTime1")),
    (("wed_time1"), tzTimeField ("WedTime1")),
    (("thu_time1"), tzTimeField ("ThuTime1")),
    (("fri_time1"), tzTimeField ("FriTime1")),
    (("sat_time1"), tzTimeField ("SatTime1")),
    (("hol1_time1"), tzTimeField ("Hol1Time1")),
    (("hol2_time1"), tzTimeField ("Hol2Time1")),
    (("hol3_time1"), tzTimeField ("Hol3Time1")),
    (("sun_time2"), tzTimeField ("SunTime2")),
    (("mon_time2"), tzTimeField ("MonTime2")),
    (("tue_time2"), tzTimeField ("TueTime2")),
    (("wed_time2"), tzTimeField ("WedTime2")),
    (("thu_time2"), tzTimeField ("ThuTime2")),
    (("fri_time2"), tzTimeField ("FriTime2")),
    (("sat_time2"), tzTimeField ("SatTime2")),
    (("hol1_time2"), tzTimeField ("Hol1Time2")),
    (("hol2_time2"), tzTimeField ("Hol2Time2")),
    (("hol3_time2"), tzTimeField ("Hol3Time2")),
    (("sun_time3"), tzTimeField ("SunTime2")),
    (("mon_time3"), tzTimeField ("MonTime2")),
    (("tue_time3"), tzTimeField ("TueTime2")),
    (("wed_time3"), tzTimeField ("WedTime2")),
    (("thu_time3"), tzTimeField ("ThuTime2")),
    (("fri_time3"), tzTimeField ("FriTime2")),
    (("sat_time3"), tzTimeField ("SatTime2")),
    (("hol1_time3"), tzTimeField ("Hol1Time3")),
    (("hol2_time3"), tzTimeField ("Hol2Time3")),
    (("hol3_time3"), tzTimeField ("Hol3Time3"))]⟩

/-- The seven aliased segment pairs of the Timezone schema. -/
def timezoneAliasPairs : List (String × String) :=
  [(("sun_time3"), ("sun_time2")),
   (("mon_time3"), ("mon_time2")),
   (("tue_time3"), ("tue_time2")),
   (("wed_time3"), ("wed_time2")),
   (("thu_time3"), ("thu_time2")),
   (("fri_time3"), ("fri_time2")),
   (("sat_time3"), ("sat_time2"))]

/-- Modelled from the spec: indexing a fixed external lookup table by an
integer.  The table is represented by its domain of legal indices (the
content of EVENT_TYPES, INOUTFUN_INPUT and INOUTFUN_OUTPUT lives in
pyzkaccess/enums.py, outside src; only the shape matters per the spec).  An
out-of-domain index raises KeyError. -/
def lookupVal (t : List Int) (i : Int) : Except PyError PyVal :=
  if t.contains i then .ok (.pyDoc i)
  else .error (.keyError ("key not in lookup table"))

/-- The get hook of an enumerated lookup field: TABLE[int(x)]. -/
def lookup_get_cb (t : List Int) (v : PyVal) : Except PyError PyVal :=
  match pyIntCast v with
  | .error e => .error e
  | .ok n => lookupVal t n

/-- The validation hook of an enumerated lookup field: x in TABLE, a domain
membership test on the key.  Modelled from the spec: a mapped constant tests
membership through its index; non-integer values are simply not keys. -/
def lookup_validation_cb (t : List Int) (v : PyVal) : Except PyError Bool :=
  .ok (match v with
       | .pyInt n => t.contains n
       | .pyBool b => t.contains (if b then 1 else 0)
       | .pyDoc n => t.contains n
       | _ => false)

/-- An enumerated lookup field as declared in tables.py: datatype int, get
hook TABLE[int(x)], no set hook, validation x in TABLE. -/
def lookupField (raw : String) (t : List Int) : Field :=
  ⟨raw, .intT, some (lookup_get_cb t), none, some (lookup_validation_cb t)⟩

/-- Transaction.event_type from tables.py, parametrized by the EVENT_TYPES
domain (modelled from the spec). -/
def Transaction.event_type (t : List Int) : Field :=
  lookupField ("EventType") t

/-- InOutFun.input_index from tables.py, parametrized by the INOUTFUN_INPUT
domain (modelled from the spec). -/
def InOutFun.input_index (t : List Int) : Field :=
  lookupField ("InAddr") t

/- Public operations on a record instance, for invariant claims over
operation sequences. -/

/-- One public mutating operation on a record instance.  write and del go
through the declared descriptor of the named logical field; writing or
deleting a name with no descriptor is a plain attribute assignment and does
not touch _raw_data. -/
inductive Op where
  | write (name : String) (v : PyVal)
  | del (name : String)
  | save
  | delete
  | with_raw_data (raw : List (String × String)) (d : Bool)
  | with_sdk (k : Sdk)

/-- Apply one operation, returning the state after the call and the
exception that propagated, if any. -/
def applyOp (s : Schema) (st : DataTable) : Op → DataTable × Option PyError
  | .write name v =>
    match dictGet s.fields name with
    | some f => f.set st v
    | none => (st, none)
  | .del name =>
    match dictGet s.fields name with
    | some f => f.del st
    | none => (st, none)
  | .save => DataTable.save s st
  | .delete => DataTable.delete s st
  | .with_raw_data raw d => (st.with_raw_data raw d, none)
  | .with_sdk k => (st.with_sdk k, none)

/-- Run a sequence of operations, carrying the post-call state across each
step. -/
def runOps (s : Schema) (st : DataTable) : List Op → DataTable
  | [] => st
  | op :: rest => runOps s (applyOp s st op).1 rest

/-- Every key of a raw mapping is one of the raw-key values of the schema's
fields_mapping. -/
def rawKeysOk (s : Schema) (raw : List (String × String)) : Bool :=
  (dictKeys raw).all (fun k => (s.fields_mapping.map (fun p => p.2)).contains k)

/-- Operations that do not bypass schema keying: with_raw_data attaches its
mapping unvalidated, so it is constrained; every other operation is free. -/
def opOk (s : Schema) : Op → Bool
  | .with_raw_data raw _ => rawKeysOk s raw
  | _ => true

/- Concrete instances used by witnesses and counterexamples. -/

/-- A backend handle whose handshakes always succeed. -/
def okSdk : Sdk :=
  ⟨fun _ _ => none, fun _ _ => none⟩

/-- The record produced by UserAuthorize() with no kwargs. -/
def uaEmpty : DataTable :=
  ⟨none, true, []⟩

/-- The record produced by UserAuthorize(pin='1'). -/
def uaSt0 : DataTable :=
  ⟨none, true, [(("Pin"), ("1"))]⟩

/-- A UserAuthorize record attached to a backend, holding Pin. -/
def uaAttachedSt : DataTable :=
  ⟨some okSdk, true, [(("Pin"), ("1"))]⟩

/-- A UserAuthorize record loaded with a raw AuthorizeTimezoneId value. -/
def uaC4St : DataTable :=
  ⟨none, false, [(("AuthorizeTimezoneId"), ("5"))]⟩

/-- The tuple (True, False, False, False). -/
def doorsTrueFFF : PyVal :=
  .pyTuple [.pyBool true, .pyBool false, .pyBool false, .pyBool false]

/-- An operation sequence with a field write, a field delete and a save. -/
def c3Ops : List Op :=
  [Op.write ("timezone_id") (PyVal.pyInt 3), Op.del ("pin"), Op.save]

/-- An empty detached Timezone record. -/
def tzStartSt : DataTable :=
  ⟨none, false, []⟩

/-- A two-element tuple of wall-clock times. -/
def tzVal : PyVal :=
  .pyTuple [.pyTime 8 30, .pyTime 17 0]

/-- Modelled from the spec: a sample lookup-table domain. -/
def sampleTable : List Int :=
  [0, 1, 2, 255]

/- Helper lemmas about the dict model. -/

theorem dictGet_mapVal {α β : Type} (g : α → β) (l : List (String × α)) (k : String) :
    dictGet (l.map (fun p => (p.1, g p.2))) k = (dictGet l k).map g := by
  induction l with
  | nil => rfl
  | cons p rest ih =>
    cases hb : (p.1 == k) <;> simp [dictGet, hb, ih]

theorem dictGet_dictSet_self {α : Type} (d : List (String × α)) (k : String) (v : α) :
    dictGet (dictSet d k v) k = some v := by
  induction d with
  | nil => simp [dictSet, dictGet]
  | cons p rest ih =>
    cases hb : (p.1 == k) <;> simp [dictSet, dictGet, hb, ih]

theorem mem_dictKeys_dictSet {α : Type} (d : List (String × α)) (k : String) (v : α)
    (k' : String) :
    k' ∈ dictKeys (dictSet d k v) ↔ (k' ∈ dictKeys d ∨ k' = k) := by
  induction d with
  | nil => simp [dictSet, dictKeys]
  | cons p rest ih =>
    cases hb : (p.1 == k)
    · simp only [dictSet, hb, Bool.false_eq_true, if_false, dictKeys, List.map_cons,
        List.mem_cons] at ih ⊢
      tauto
    · have hpk : p.1 = k := by simpa using hb
      simp only [dictSet, hb, if_true, dictKeys, List.map_cons, List.mem_cons, hpk,
        beq_self_eq_true]
      tauto

theorem mem_dictKeys_dictDel {α : Type} (d : List (String × α)) (k k' : String) :
    k' ∈ dictKeys (dictDel d k) → k' ∈ dictKeys d := by
  induction d with
  | nil => simp [dictDel]
  | cons p rest ih =>
    cases hb : (p.1 == k) <;>
      simp only [dictDel, hb, Bool.false_eq_true, if_false, if_true, dictKeys, List.map_cons,
        List.mem_cons] <;>
      tauto

theorem dictGet_eq_none_of_not_mem {α : Type} (d : List (String × α)) (k : String) :
    ¬ k ∈ dictKeys d → dictGet d k = none := by
  induction d with
  | nil => intro _; rfl
  | cons p rest ih =>
    intro h
    simp only [dictKeys, List.map_cons, List.mem_cons, not_or] at h
    have hb : (p.1 == k) = false := beq_eq_false_iff_ne.mpr (fun e => h.1 e.symm)
    simp only [dictGet, hb, Bool.false_eq_true, if_false]
    exact ih (by simpa [dictKeys] using h.2)

theorem dictGet_val_mem {α : Type} (d : List (String × α)) (k : String) (v : α) :
    dictGet d k = some v → v ∈ d.map (fun p => p.2) := by
  induction d with
  | nil => intro h; cases h
  | cons p rest ih =>
    intro h
    cases hb : (p.1 == k) <;> simp only [dictGet, hb, Bool.false_eq_true, if_false, if_true,
      Option.some.injEq] at h
    · exact List.mem_cons_of_mem _ (ih h)
    · simp [← h]

theorem dictGet_fields_mapping (s : Schema) (k : String) :
    dictGet s.fields_mapping k = (dictGet s.fields k).map Field.raw_name :=
  dictGet_mapVal Field.raw_name s.fields k

/-- Unfolding of the descriptor set operation for a non-None value: the
encode result alone decides between an unchanged state with a raised
exception and an updated raw_data with dirty set. -/
theorem Field.set_of_ne_none (f : Field) (st : DataTable) (v : PyVal)
    (hv : v ≠ PyVal.pyNone) :
    Field.set f st v
      = (match f.to_raw_value v with
         | .error e => (st, some e)
         | .ok raw =>
           ({ st with raw_data := dictSet st.raw_data f.raw_name raw, dirty := true }, none)) := by
  cases v <;> first | exact absurd rfl hv | rfl

/-- The raw keys produced by the __init__ comprehension are exactly the
accumulator's keys plus the raw keys the schema assigns to the supplied
logical names. -/
theorem encodeFields_keys (s : Schema) (flds : List (String × PyVal)) :
    ∀ acc raw, encodeFields s flds acc = .ok raw → ∀ rk : String,
      (rk ∈ dictKeys raw ↔
        (rk ∈ dictKeys acc ∨ ∃ p ∈ flds, dictGet s.fields_mapping p.1 = some rk)) := by
  induction flds with
  | nil =>
    intro acc raw h rk
    simp only [encodeFields] at h
    injection h with h
    subst h
    simp
  | cons q rest ih =>
    intro acc raw h rk
    obtain ⟨name, v⟩ := q
    simp only [encodeFields] at h
    cases hf : dictGet s.fields name with
    | none => simp [hf] at h
    | some f =>
      cases henc : f.to_raw_value v with
      | error e => simp [hf, henc] at h
      | ok r =>
        simp only [hf, henc] at h
        have hfm : dictGet s.fields_mapping name = some f.raw_name := by
          rw [dictGet_fields_mapping, hf]; rfl
        rw [ih (dictSet acc f.raw_name r) raw h rk, mem_dictKeys_dictSet]
        simp only [List.mem_cons, exists_eq_or_imp, hfm, Option.some.injEq]
        constructor
        · rintro ((hm | he) | hx)
          · exact Or.inl hm
          · exact Or.inr (Or.inl he.symm)
          · exact Or.inr (Or.inr hx)
        · rintro (hm | (he | hx))
          · exact Or.inl (Or.inl hm)
          · exact Or.inl (Or.inr he.symm)
          · exact Or.inr hx

/-- The raw keys of a successfully constructed record are exactly the raw
keys the schema assigns to the supplied logical names. -/
theorem init_keys (s : Schema) (flds : List (String × PyVal)) (st0 : DataTable)
    (h : DataTable.init s flds = .ok st0) (rk : String) :
    rk ∈ dictKeys st0.raw_data ↔ ∃ p ∈ flds, dictGet s.fields_mapping p.1 = some rk := by
  unfold DataTable.init at h
  by_cases hemp : flds.isEmpty
  · rw [if_pos hemp] at h
    injection h with h
    subst h
    have : flds = [] := by simpa [List.isEmpty_iff] using hemp
    subst this
    simp [dictKeys]
  · rw [if_neg hemp] at h
    split at h
    · cases h
    · cases henc : encodeFields s flds [] with
      | error e => simp [henc] at h
      | ok raw =>
        simp only [henc] at h
        injection h with h
        subst h
        simpa [dictKeys] using encodeFields_keys s flds [] raw henc rk

/-- Inserting a raw key that belongs to the schema preserves the key
invariant. -/
theorem rawKeysOk_dictSet (s : Schema) (raw : List (String × String)) (k r : String)
    (h : rawKeysOk s raw = true) (hk : k ∈ s.fields_mapping.map (fun p => p.2)) :
    rawKeysOk s (dictSet raw k r) = true := by
  simp only [rawKeysOk, List.all_eq_true] at h ⊢
  intro x hx
  rcases (mem_dictKeys_dictSet raw k r x).mp hx with hm | he
  · exact h x hm
  · subst he
    simpa using hk

/-- Removing a raw key preserves the key invariant. -/
theorem rawKeysOk_dictDel (s : Schema) (raw : List (String × String)) (k : String)
    (h : rawKeysOk s raw = true) :
    rawKeysOk s (dictDel raw k) = true := by
  simp only [rawKeysOk, List.all_eq_true] at h ⊢
  intro x hx
  exact h x (mem_dictKeys_dictDel raw k x hx)

/-- A descriptor delete preserves the key invariant. -/
theorem rawKeysOk_del (s : Schema) (st : DataTable) (f : Field)
    (h : rawKeysOk s st.raw_data = true) :
    rawKeysOk s (Field.del f st).1.raw_data = true := by
  unfold Field.del
  split
  · exact rawKeysOk_dictDel s st.raw_data f.raw_name h
  · exact h

/-- A descriptor write through a field of the schema preserves the key
invariant. -/
theorem rawKeysOk_set (s : Schema) (st : DataTable) (f : Field) (v : PyVal)
    (h : rawKeysOk s st.raw_data = true)
    (hf : f.raw_name ∈ s.fields_mapping.map (fun p => p.2)) :
    rawKeysOk s (Field.set f st v).1.raw_data = true := by
  by_cases hv : v = PyVal.pyNone
  · subst hv
    exact rawKeysOk_del s st f h
  · rw [Field.set_of_ne_none f st v hv]
    cases henc : f.to_raw_value v with
    | error e => simpa using h
    | ok r => simpa using rawKeysOk_dictSet s st.raw_data f.raw_name r h hf

/-- Every public operation other than an unconstrained with_raw_data
preserves the key invariant. -/
theorem rawKeysOk_applyOp (s : Schema) (st : DataTable) (op : Op)
    (h : rawKeysOk s st.raw_data = true) (hop : opOk s op = true) :
    rawKeysOk s (applyOp s st op).1.raw_data = true := by
  cases op with
  | write name v =>
    cases hf : dictGet s.fields name with
    | none => simpa [applyOp, hf] using h
    | some f =>
      have hraw : f.raw_name ∈ s.fields_mapping.map (fun p => p.2) := by
        apply dictGet_val_mem s.fields_mapping name
        rw [dictGet_fields_mapping, hf]
        rfl
      simpa [applyOp, hf] using rawKeysOk_set s st f v h hraw
  | del name =>
    cases hf : dictGet s.fields name with
    | none => simpa [applyOp, hf] using h
    | some f => simpa [applyOp, hf] using rawKeysOk_del s st f h
  | save =>
    cases hsdk : st.sdk with
    | none => simpa [applyOp, DataTable.save, hsdk] using h
    | some k =>
      cases hk : k.set_device_data s.table_name st.raw_data with
      | none => simpa [applyOp, DataTable.save, hsdk, hk] using h
      | some e => simpa [applyOp, DataTable.save, hsdk, hk] using h
  | delete =>
    cases hsdk : st.sdk with
    | none => simpa [applyOp, DataTable.delete, hsdk] using h
    | some k =>
      cases hk : k.delete_device_data s.table_name st.raw_data with
      | none => simpa [applyOp, DataTable.delete, hsdk, hk] using h
      | some e => simpa [applyOp, DataTable.delete, hsdk, hk] using h
  | with_raw_data raw d => simpa [applyOp, DataTable.with_raw_data, opOk] using hop
  | with_sdk k => simpa [applyOp, DataTable.with_sdk] using h

/-- The key invariant is preserved along any run of constrained
operations. -/
theorem rawKeysOk_runOps (s : Schema) (ops : List Op) :
    ∀ st : DataTable, rawKeysOk s st.raw_data = true → ops.all (opOk s) = true →
      rawKeysOk s (runOps s st ops).raw_data = true := by
  induction ops with
  | nil => intro st h _; exact h
  | cons op rest ih =>
    intro st h hops
    simp only [List.all_cons, Bool.and_eq_true] at hops
    exact ih (applyOp s st op).1 (rawKeysOk_applyOp s st op h hops.1) hops.2

/- Claim theorems. -/

/-- Claim C1: the claim states that encoding the doors tuple
(True, False, False, False) and decoding the result yields the tuple back.
On the code this fails: the encode hook joins a reversed tuple of booleans
with str.join, which raises TypeError because the items are not strings, and
the decode hook maps every stored value to four True elements, because
bool(i) of a one-character string i is its non-emptiness.  This theorem
evaluates the code at those inputs. -/
theorem C1_doors_codec_eval :
    Field.to_raw_value doors doorsTrueFFF
      = .error (.typeError ("sequence item: expected str instance"))
  ∧ Field.to_field_value doors ("1")
      = .ok (.pyTuple [.pyBool true, .pyBool true, .pyBool true, .pyBool true])
  ∧ Field.to_field_value doors ("8")
      = .ok (.pyTuple [.pyBool true, .pyBool true, .pyBool true, .pyBool true]) :=
  ⟨rfl, rfl, rfl⟩

/-- Claim C2: dirty lifecycle.  A record constructed from explicit field
values is dirty; with_raw_data with dirty false reports not dirty; a
successful non-None descriptor write sets dirty; a delete of a present field
sets dirty; a successful save clears dirty. -/
theorem C2_dirty_lifecycle (s : Schema) (flds : List (String × PyVal)) (st0 : DataTable)
    (hinit : DataTable.init s flds = .ok st0)
    (st : DataTable) (raw : List (String × String)) (f : Field) (v : PyVal) :
    st0.dirty = true
  ∧ (DataTable.with_raw_data st raw false).dirty = false
  ∧ (v ≠ PyVal.pyNone → (Field.set f st v).2 = none → (Field.set f st v).1.dirty = true)
  ∧ ((dictKeys st.raw_data).contains f.raw_name = true → (Field.del f st).1.dirty = true)
  ∧ ((DataTable.save s st).2 = none → (DataTable.save s st).1.dirty = false) := by
  refine ⟨?_, rfl, ?_, ?_, ?_⟩
  · unfold DataTable.init at hinit
    by_cases hemp : flds.isEmpty
    · rw [if_pos hemp] at hinit
      injection hinit with h
      subst h
      rfl
    · rw [if_neg hemp] at hinit
      split at hinit
      · cases hinit
      · cases henc : encodeFields s flds [] with
        | error e => simp [henc] at hinit
        | ok raw2 =>
          simp only [henc] at hinit
          injection hinit with h
          subst h
          rfl
  · intro hv hok
    rw [Field.set_of_ne_none f st v hv] at hok ⊢
    cases henc : f.to_raw_value v with
    | error e => simp [henc] at hok
    | ok r => simp [henc]
  · intro hmem
    unfold Field.del
    rw [if_pos hmem]
  · intro hok
    unfold DataTable.save at hok ⊢
    cases hsdk : st.sdk with
    | none => simp [hsdk] at hok
    | some k =>
      cases hk : k.set_device_data s.table_name st.raw_data with
      | none => simp [hsdk, hk]
      | some e => simp [hsdk, hk] at hok

/-- Witness for C2 at concrete records: an empty UserAuthorize construction,
an attached record with a Pin value, a Pin write, a Pin delete and a save
against a succeeding backend. -/
theorem C2_dirty_lifecycle_witness :
    uaEmpty.dirty = true
  ∧ (DataTable.with_raw_data uaAttachedSt [(("Pin"), ("2"))] false).dirty = false
  ∧ (Field.set (strField ("Pin")) uaAttachedSt (PyVal.pyStr ("2"))).1.dirty = true
  ∧ (Field.del (strField ("Pin")) uaAttachedSt).1.dirty = true
  ∧ (DataTable.save UserAuthorize uaAttachedSt).1.dirty = false := by
  have h := C2_dirty_lifecycle UserAuthorize [] uaEmpty rfl uaAttachedSt [(("Pin"), ("2"))]
              (strField ("Pin")) (PyVal.pyStr ("2"))
  exact ⟨h.1, h.2.1, h.2.2.1 (by simp) rfl, h.2.2.2.1 rfl, h.2.2.2.2 rfl⟩

/-- Counterexample to claim C3 as stated: with_raw_data is a public
operation, performs no validation, and can attach a raw mapping whose key
Bogus is not among the raw-key values of the UserAuthorize schema. -/
theorem C3_with_raw_data_escape :
    DataTable.init UserAuthorize [] = .ok uaEmpty
  ∧ ("Bogus") ∈ dictKeys (runOps UserAuthorize uaEmpty
        [Op.with_raw_data [(("Bogus"), ("x"))] true]).raw_data
  ∧ ¬ ("Bogus") ∈ UserAuthorize.fields_mapping.map (fun p => p.2) := by
  refine ⟨rfl, ?_, ?_⟩ <;> decide

/-- Claim C3 (amended): after construction from typed values and any
sequence of public operations in which every with_raw_data attachment itself
uses only schema raw keys, every key of raw_data is one of the raw-key
values of the schema's fields_mapping; unknown names are rejected at
construction.  The amendment is forced because with_raw_data attaches an
arbitrary mapping unvalidated. -/
theorem C3_schema_keys_invariant (s : Schema) (flds : List (String × PyVal))
    (st0 : DataTable) (hinit : DataTable.init s flds = .ok st0)
    (ops : List Op) (hops : ops.all (opOk s) = true) :
    rawKeysOk s (runOps s st0 ops).raw_data = true := by
  apply rawKeysOk_runOps s ops st0 _ hops
  simp only [rawKeysOk, List.all_eq_true]
  intro k hk
  obtain ⟨p, _, hm⟩ := (init_keys s flds st0 hinit k).mp hk
  simpa using dictGet_val_mem s.fields_mapping p.1 k hm

/-- Witness for C3 at a concrete record and operation sequence. -/
theorem C3_schema_keys_invariant_witness :
    rawKeysOk UserAuthorize (runOps UserAuthorize uaSt0 c3Ops).raw_data = true :=
  C3_schema_keys_invariant UserAuthorize [(("pin"), PyVal.pyStr ("1"))] uaSt0 rfl c3Ops rfl

/-- Counterexample to claim C4 as stated: the data property of a
UserAuthorize record holding raw AuthorizeTimezoneId 5 exposes the raw
string 5 for timezone_id, not the value produced by the field's decode
contract, which is the integer 5. -/
theorem C4_data_not_decoded :
    dictGet UserAuthorize.fields ("timezone_id") = some (intField ("AuthorizeTimezoneId"))
  ∧ dictGet (DataTable.data UserAuthorize uaC4St) ("timezone_id") = some (.pyStr ("5"))
  ∧ Field.to_field_value (intField ("AuthorizeTimezoneId")) ("5") = .ok (.pyInt 5)
  ∧ PyVal.pyStr ("5") ≠ PyVal.pyInt 5 := by
  refine ⟨rfl, rfl, rfl, ?_⟩
  intro h
  exact PyVal.noConfusion h

/-- Claim C4 (amended): the data property exposes every logical field
declared in the schema, mapping each present field to its stored raw string
without applying the decode contract, and each absent field to None rather
than raising; attribute access of a never-written field likewise returns
None, not an error, and decoding happens there.  The amendment is forced
because DataTable.data returns raw_data.get values undecoded. -/
theorem C4_data_view (s : Schema) (st : DataTable) (name rawKey : String) (f : Field)
    (hmap : dictGet s.fields_mapping name = some rawKey)
    (habsent : dictGet st.raw_data f.raw_name = none) :
    (DataTable.data s st).map (fun p => p.1) = s.fields.map (fun p => p.1)
  ∧ dictGet (DataTable.data s st) name = some (rawToView (dictGet st.raw_data rawKey))
  ∧ Field.get f st = .ok PyVal.pyNone := by
  refine ⟨?_, ?_, ?_⟩
  · simp [DataTable.data, Schema.fields_mapping, List.map_map, Function.comp]
  · calc dictGet (DataTable.data s st) name
        = (dictGet s.fields_mapping name).map
            (fun rk => rawToView (dictGet st.raw_data rk)) :=
          dictGet_mapVal (fun rk => rawToView (dictGet st.raw_data rk)) s.fields_mapping name
      _ = some (rawToView (dictGet st.raw_data rawKey)) := by rw [hmap]; rfl
  · unfold Field.get
    rw [habsent]

/-- Witness for C4 at a concrete UserAuthorize record with a present
timezone_id raw value and an absent doors raw value. -/
theorem C4_data_view_witness :
    (DataTable.data UserAuthorize uaC4St).map (fun p => p.1)
      = UserAuthorize.fields.map (fun p => p.1)
  ∧ dictGet (DataTable.data UserAuthorize uaC4St) ("timezone_id")
      = some (rawToView (dictGet uaC4St.raw_data ("AuthorizeTimezoneId")))
  ∧ Field.get doors uaC4St = .ok PyVal.pyNone :=
  C4_data_view UserAuthorize uaC4St ("timezone_id") ("AuthorizeTimezoneId") doors rfl rfl

/-- Claim C5: Field.to_raw_value checks, in this order: a type-mismatch
TypeError when the value is not an instance of field_datatype, regardless of
what the validation hook would do; a ValueError when the validation hook is
set and returns false; otherwise the enum-unwrapped value goes through the
set hook and the result's string form is returned. -/
theorem C5_encode_steps (f : Field) (v : PyVal) :
    (isinstance v f.field_datatype = false →
        Field.to_raw_value f v = .error (.typeError ("Bad value type")))
  ∧ (isinstance v f.field_datatype = true → validationResult f v = .ok false →
        Field.to_raw_value f v
          = .error (.valueError ("Value does not meet to field restrictions")))
  ∧ (isinstance v f.field_datatype = true → validationResult f v = .ok true →
        Field.to_raw_value f v = (encodeHookResult f (enumUnwrap v)).map pyToString) := by
  refine ⟨?_, ?_, ?_⟩
  · intro h
    simp [Field.to_raw_value, h]
  · intro h hval
    simp [Field.to_raw_value, h, hval]
  · intro h hval
    simp only [Field.to_raw_value, h, Bool.true_eq_false, if_false, hval]
    cases h2 : encodeHookResult f (enumUnwrap v) <;> simp [h2, Except.map]

/-- Witness for C5 at the doors field and an integer value: the value fails
the tuple type check, and the validation hook would itself raise on an
integer, so the TypeError shows the type check runs first. -/
theorem C5_encode_steps_witness :
    Field.to_raw_value doors (PyVal.pyInt 3) = .error (.typeError ("Bad value type")) :=
  (C5_encode_steps doors (PyVal.pyInt 3)).1 rfl

/-- Claim C6: a descriptor write whose encode fails raises that error and
returns the record exactly as it was, raw_data and dirty included. -/
theorem C6_failed_write_atomic (f : Field) (st : DataTable) (v : PyVal) (e : PyError)
    (hv : v ≠ PyVal.pyNone) (henc : Field.to_raw_value f v = .error e) :
    Field.set f st v = (st, some e) := by
  rw [Field.set_of_ne_none f st v hv, henc]

/-- Witness for C6: writing a one-element tuple to doors fails validation
and leaves the attached record untouched. -/
theorem C6_failed_write_atomic_witness :
    Field.set doors uaAttachedSt (PyVal.pyTuple [PyVal.pyBool true])
      = (uaAttachedSt, some (.valueError ("Value does not meet to field restrictions"))) :=
  C6_failed_write_atomic doors uaAttachedSt (PyVal.pyTuple [PyVal.pyBool true])
    (.valueError ("Value does not meet to field restrictions")) (by simp) rfl

/-- Claim C7: construction with any logical name outside the schema's
fields_mapping fails with the Unknown-fields TypeError and produces no
record at all; when construction succeeds, raw_data holds exactly the raw
keys the schema assigns to the supplied names. -/
theorem C7_unknown_field (s : Schema) (flds : List (String × PyVal)) :
    ((dictKeys flds).any (fun k => !(dictKeys s.fields_mapping).contains k) = true →
        DataTable.init s flds = .error (.typeError ("Unknown fields")))
  ∧ (∀ st0, DataTable.init s flds = .ok st0 → ∀ rk : String,
        (rk ∈ dictKeys st0.raw_data ↔
          ∃ p ∈ flds, dictGet s.fields_mapping p.1 = some rk)) := by
  constructor
  · intro h
    have hne : ¬ (flds.isEmpty = true) := by
      cases flds
      · simp [dictKeys] at h
      · simp
    unfold DataTable.init
    rw [if_neg hne, if_pos h]
  · intro st0 h rk
    exact init_keys s flds st0 h rk

/-- Witness for C7: a bogus name is rejected, and a successful construction
from pin holds exactly the raw key Pin. -/
theorem C7_unknown_field_witness :
    DataTable.init UserAuthorize [(("bogus"), PyVal.pyStr ("x"))]
      = .error (.typeError ("Unknown fields"))
  ∧ (("Pin") ∈ dictKeys uaSt0.raw_data ↔
      ∃ p ∈ [(("pin"), PyVal.pyStr ("1"))],
        dictGet UserAuthorize.fields_mapping p.1 = some ("Pin")) :=
  ⟨(C7_unknown_field UserAuthorize [(("bogus"), PyVal.pyStr ("x"))]).1 rfl,
   (C7_unknown_field UserAuthorize [(("pin"), PyVal.pyStr ("1"))]).2 uaSt0 rfl ("Pin")⟩

/-- Claim C8: save and delete on a record with no attached sdk handle fail
with the detached-record TypeError and return the state unchanged. -/
theorem C8_detached_guard (s : Schema) (st : DataTable) (h : st.sdk = none) :
    DataTable.save s st
      = (st, some (.typeError ("Unable to save a manually created data table record")))
  ∧ DataTable.delete s st
      = (st, some (.typeError ("Unable to delete a manually created data table record"))) := by
  constructor <;> simp [DataTable.save, DataTable.delete, h]

/-- Witness for C8 at a record built purely from values. -/
theorem C8_detached_guard_witness :
    DataTable.save UserAuthorize uaSt0
      = (uaSt0, some (.typeError ("Unable to save a manually created data table record")))
  ∧ DataTable.delete UserAuthorize uaSt0
      = (uaSt0, some (.typeError ("Unable to delete a manually created data table record"))) :=
  C8_detached_guard UserAuthorize uaSt0 rfl

/-- Claim C9: for an enumerated lookup field, decoding a raw integer outside
the table's domain fails closed with KeyError; an in-domain raw integer
decodes to the mapped constant, which re-encodes to the decimal string of
the same index; and the validation hook accepts an integer exactly when it
is in the domain. -/
theorem C9_lookup_domain (raw : String) (t : List Int) (s s' : String) (i j : Int)
    (hs : pyIntOfStr s = .ok i) (hi : t.contains i = true)
    (hs' : pyIntOfStr s' = .ok j) (hj : t.contains j = false) :
    Field.to_field_value (lookupField raw t) s'
      = .error (.keyError ("key not in lookup table"))
  ∧ Field.to_field_value (lookupField raw t) s = .ok (.pyDoc i)
  ∧ Field.to_raw_value (lookupField raw t) (.pyDoc i) = .ok (toString i)
  ∧ (∀ n : Int, lookup_validation_cb t (.pyInt n) = .ok (t.contains n)) := by
  have hjm : ¬ j ∈ t := by simpa using hj
  have him : i ∈ t := by simpa using hi
  refine ⟨?_, ?_, ?_, fun n => rfl⟩
  · simp [Field.to_field_value, lookupField, lookup_get_cb, pyIntCast, hs', lookupVal, hjm]
  · simp [Field.to_field_value, lookupField, lookup_get_cb, pyIntCast, hs, lookupVal, him,
      isinstance]
  · simp [Field.to_raw_value, lookupField, isinstance, validationResult, lookup_validation_cb,
      hi, him, enumUnwrap, encodeHookResult, pyToString, pyAtomString]

/-- Witness for C9 at the EventType raw name and a sample domain: 999 fails
decode, 2 decodes and re-encodes to the string 2, and the validation hook is
the domain test at 7. -/
theorem C9_lookup_domain_witness :
    Field.to_field_value (lookupField ("EventType") sampleTable) ("999")
      = .error (.keyError ("key not in lookup table"))
  ∧ Field.to_field_value (lookupField ("EventType") sampleTable) ("2") = .ok (.pyDoc 2)
  ∧ Field.to_raw_value (lookupField ("EventType") sampleTable) (.pyDoc 2)
      = .ok (toString (2 : Int))
  ∧ lookup_validation_cb sampleTable (.pyInt 7) = .ok (sampleTable.contains 7) := by
  have h := C9_lookup_domain ("EventType") sampleTable ("2") ("999") 2 999 rfl rfl rfl rfl
  exact ⟨h.1, h.2.1, h.2.2.1, h.2.2.2 7⟩

/-- Claim C10: in the Timezone schema all seven segment-3 weekday fields
carry the same raw keys as their segment-2 counterparts, so fields_mapping
is not injective; both logical names resolve to one identical descriptor on
the raw key SunTime2, hence a successful write through sun_time3 stores
under SunTime2 and the value subsequently read through sun_time2 is the
decode of exactly that stored raw value, and symmetrically. -/
theorem C10_segment3_alias (st : DataTable) (v : PyVal) (r : String)
    (hv : v ≠ PyVal.pyNone)
    (henc : Field.to_raw_value (tzTimeField ("SunTime2")) v = .ok r) :
    (timezoneAliasPairs.all (fun p =>
        dictGet Timezone.fields_mapping p.1 == dictGet Timezone.fields_mapping p.2
        && (dictGet Timezone.fields_mapping p.1).isSome) = true)
  ∧ dictGet Timezone.fields ("sun_time3") = some (tzTimeField ("SunTime2"))
  ∧ dictGet Timezone.fields ("sun_time2") = some (tzTimeField ("SunTime2"))
  ∧ Field.set (tzTimeField ("SunTime2")) st v
      = ({ st with raw_data := dictSet st.raw_data ("SunTime2") r, dirty := true }, none)
  ∧ Field.get (tzTimeField ("SunTime2")) (Field.set (tzTimeField ("SunTime2")) st v).1
      = Field.to_field_value (tzTimeField ("SunTime2")) r := by
  have hset : Field.set (tzTimeField ("SunTime2")) st v
      = ({ st with raw_data := dictSet st.raw_data ("SunTime2") r, dirty := true }, none) := by
    rw [Field.set_of_ne_none _ _ _ hv]
    simp only [henc]
    rfl
  refine ⟨rfl, rfl, rfl, hset, ?_⟩
  rw [hset]
  simp [Field.get, tzTimeField, dictGet_dictSet_self]

/-- Witness for C10: writing the time range 08:30 to 17:00 through the
segment-3 Sunday field of an empty detached Timezone record. -/
theorem C10_segment3_alias_witness :
    (timezoneAliasPairs.all (fun p =>
        dictGet Timezone.fields_mapping p.1 == dictGet Timezone.fields_mapping p.2
        && (dictGet Timezone.fields_mapping p.1).isSome) = true)
  ∧ dictGet Timezone.fields ("sun_time3") = some (tzTimeField ("SunTime2"))
  ∧ dictGet Timezone.fields ("sun_time2") = some (tzTimeField ("SunTime2"))
  ∧ Field.set (tzTimeField ("SunTime2")) tzStartSt tzVal
      = ({ tzStartSt with raw_data := dictSet tzStartSt.raw_data ("SunTime2") ("8301700"), dirty := true }, none)
  ∧ Field.get (tzTimeField ("SunTime2"))
        (Field.set (tzTimeField ("SunTime2")) tzStartSt tzVal).1
      = Field.to_field_value (tzTimeField ("SunTime2")) ("8301700") :=
  C10_segment3_alias tzStartSt tzVal ("8301700") (by simp [tzVal]) rfl

end Pyzk
